import Mathlib

/-!
Verification of the DoroFill field-coordinate document filler.

This file is a shallow embedding of the JavaScript sources of the
repository (dorofill/js: calculator.js, validator.js, pdf-generator.js,
pdf-handler.js and the coordinate tables) into Lean 4, together with
theorems that settle the frozen claims about that code.

Modelling conventions:
- JavaScript numbers are rationals (Rat).  Where a claim's conclusion is
  structural (strict comparisons, gating on positivity and coordinate
  coverage, ordering, capping) the exact rational value is used: every
  concrete value those claims touch is exactly representable in binary64
  and no rounding decides their outcome.  Where the binary64 identity of
  a computed value is decisive (the accumulated axle totals placed by the
  document filler, claim C1), every parse result and every addition is
  rounded to the nearest representable binary64 double (roundToF64: 53-bit
  significand, round to nearest, ties to even), and toFixed renders the
  exact value of that double, which is what the ECMAScript algorithm
  prescribes.
- JavaScript objects used as string-keyed records (form data, coordinate
  tables) are modelled as association lists with a rightmost-binding-wins
  lookup, so that the object spread operation, where later keys overwrite
  earlier ones, is plain list append.
- parseFloat is modelled on the finite decimal fragment of its grammar
  (optional sign, digits, optional fraction, optional exponent, longest
  valid prefix, leading whitespace skipped); the Infinity literal is
  outside the numeric domain of the model.  NaN is modelled as none.
- Page mutation (drawing text) is modelled by the list of placement calls
  a routine issues, in order; each placement records the text, position
  and style handed to the text placement adapter (addTextToPdf).
-/

attribute [local semireducible] Rat.add Rat.mul Rat.inv Rat.sub Rat.ofScientific

set_option maxRecDepth 16384

/-- A page coordinate entry, field of the PDF_COORDINATES tables:
x and y position in PDF points and the font size (all integer literals in
the source). -/
structure Coord where
  x : Int
  y : Int
  size : Int
deriving DecidableEq

/-- RGB color in the 0..1 range, as in PDF_CONFIG.colors. -/
structure Color where
  r : Rat
  g : Rat
  b : Rat
deriving DecidableEq

/-- PDF_CONFIG.colors.black from pdf-handler.js. -/
def PDF_CONFIG_black : Color := { r := 0, g := 0, b := 0 }

/-- PDF_CONFIG.colors.red from pdf-handler.js, the alert color used for
violating values. -/
def PDF_CONFIG_red : Color := { r := 93 / 100, g := 27 / 100, b := 27 / 100 }

/-- One call to the text placement adapter addTextToPdf: the text drawn,
the position and the style options.  The assembly routines are modelled as
producing the list of these calls in order. -/
structure Placement where
  text : String
  x : Int
  y : Int
  size : Int
  isBold : Bool
  color : Color
deriving DecidableEq

/-- A string-keyed JavaScript object holding coordinates (one page of a
coordinate table). -/
abbrev ObjTable := List (String × Coord)

/-- The flat form-data mapping collected by the UI layer: field name to
entered string. -/
abbrev FormData := List (String × String)

/-- Property lookup on an association-list model of a JavaScript object.
The rightmost binding wins, so that object spread (later keys overwrite
earlier ones) is modelled by list append. -/
def objLookup {α : Type} (l : List (String × α)) (k : String) : Option α :=
  match l with
  | [] => none
  | (key, v) :: rest =>
    match objLookup rest k with
    | some r => some r
    | none => if key = k then some v else none

/-- Whitespace skipped by parseFloat before reading a number. -/
def isWhitespaceChar (c : Char) : Bool :=
  c = ' ' || c = '\t' || c = '\n' || c = '\r' || c = '\x0b' || c = '\x0c'

/-- Decimal digit test for the parseFloat model. -/
def isDigitChar (c : Char) : Bool :=
  '0' ≤ c && c ≤ '9'

/-- Numeric value of a decimal digit character. -/
def digitVal (c : Char) : Nat :=
  c.toNat - '0'.toNat

/-- Value of a list of decimal digit characters read left to right. -/
def digitsToNat (ds : List Char) : Nat :=
  ds.foldl (fun acc c => 10 * acc + digitVal c) 0

/-- Value of the optional exponent part trailing a decimal literal: an e
or E, an optional sign and at least one digit; anything else contributes
exponent zero, as parseFloat ignores a trailing partial exponent. -/
def exponentValue (cs : List Char) : Int :=
  match cs with
  | [] => 0
  | c :: rest =>
    if c = 'e' || c = 'E' then
      let signed : Int × List Char :=
        match rest with
        | '+' :: r => (1, r)
        | '-' :: r => (-1, r)
        | _ => (1, rest)
      let ds := signed.2.takeWhile isDigitChar
      if ds.isEmpty then 0 else signed.1 * (digitsToNat ds : Int)
    else 0

/-- Mantissa value of an integer digit part and a fractional digit part. -/
def mantissaValue (ip : Nat) (fr : List Char) : Rat :=
  (ip : Rat) + (digitsToNat fr : Rat) / (10 : Rat) ^ fr.length

/-- Model of the JavaScript parseFloat on the finite decimal fragment of
its grammar: leading whitespace is skipped, then the longest prefix of the
form sign, digits, optional point and fraction digits, optional exponent
is read; none models NaN (no numeric prefix at all). -/
def parseFloat (s : String) : Option Rat :=
  let cs := s.data.dropWhile isWhitespaceChar
  let signed : Rat × List Char :=
    match cs with
    | '+' :: r => (1, r)
    | '-' :: r => (-1, r)
    | _ => (1, cs)
  let ints := signed.2.takeWhile isDigitChar
  let afterInts := signed.2.dropWhile isDigitChar
  match ints, afterInts with
  | [], '.' :: cs₂ =>
    let fr := cs₂.takeWhile isDigitChar
    if fr.isEmpty then none
    else some (signed.1 * mantissaValue 0 fr *
      (10 : Rat) ^ exponentValue (cs₂.dropWhile isDigitChar))
  | [], _ => none
  | _, '.' :: cs₂ =>
    let fr := cs₂.takeWhile isDigitChar
    some (signed.1 * mantissaValue (digitsToNat ints) fr *
      (10 : Rat) ^ exponentValue (cs₂.dropWhile isDigitChar))
  | _, _ =>
    some (signed.1 * (digitsToNat ints : Rat) * (10 : Rat) ^ exponentValue afterInts)

/-- Decimal rendering of a natural number. -/
def natStr (n : Nat) : String :=
  String.mk (Nat.toDigits 10 n)

/-- Left-pad a digit list with zeros up to the requested width. -/
def padZeros (width : Nat) (ds : List Char) : List Char :=
  List.replicate (width - ds.length) '0' ++ ds

/-- Rendering of a nonnegative rational with exactly f digits after the
point, rounding half up, as Number.prototype.toFixed does on the exact
value of a nonnegative number. -/
def toFixedPos (f : Nat) (q : Rat) : String :=
  let scaled := (⌊q * (10 : Rat) ^ f + 1 / 2⌋).toNat
  let ip := scaled / 10 ^ f
  let fp := scaled % 10 ^ f
  if f = 0 then natStr ip
  else natStr ip ++ "." ++ String.mk (padZeros f (Nat.toDigits 10 fp))

/-- Number.prototype.toFixed with f fraction digits: the ECMAScript
algorithm renders the exact mathematical value of the number it is called
on, choosing the closest f-digit decimal with ties to the larger, and
renders a negative number as the sign followed by the rendering of its
negation.  This function implements that algorithm on the exact value of
its rational argument; where the source's number is a binary64 double,
the caller passes the exact value of that double. -/
def toFixedStr (f : Nat) (q : Rat) : String :=
  if q < 0 then "-" ++ toFixedPos f (-q) else toFixedPos f q

/-- Number of binary digits of a natural number (one digit for zero). -/
def bitLength (n : Nat) : Nat :=
  (Nat.toDigits 2 n).length

/-- Floor of the base-2 logarithm of a positive rational, computed from
the bit lengths of numerator and denominator and one comparison. -/
def ratLog2Floor (q : Rat) : Int :=
  let k : Int := (bitLength q.num.toNat : Int) - (bitLength q.den : Int)
  if q < (2 : Rat) ^ k then k - 1 else k

/-- Rounding to the nearest integer with ties to even, the IEEE 754
default rounding direction. -/
def roundHalfEven (q : Rat) : Int :=
  let f := ⌊q⌋
  let r := q - (f : Rat)
  if r < 1 / 2 then f
  else if 1 / 2 < r then f + 1
  else if f % 2 = 0 then f else f + 1

/-- Rounding of a rational to the nearest representable binary64 double
(53-bit significand, round to nearest, ties to even), the arithmetic of
JavaScript numbers: the magnitude is scaled into the significand range
by its exponent, rounded half-to-even to an integer and scaled back.
Faithful on the normal finite range, which covers every weight and total
these documents handle; overflow and subnormal rounding are outside the
model. -/
def roundToF64 (q : Rat) : Rat :=
  if q = 0 then 0
  else
    let a := if q < 0 then -q else q
    let e : Int := ratLog2Floor a - 52
    let m := roundHalfEven (a / (2 : Rat) ^ e)
    let rounded := (m : Rat) * (2 : Rat) ^ e
    if q < 0 then -rounded else rounded

/-- Binary64 addition: the exact sum of two doubles rounded to the
nearest double, as every JavaScript addition does. -/
def f64add (a b : Rat) : Rat :=
  roundToF64 (a + b)

/-- parseFloat as JavaScript delivers it: the exact decimal value of the
literal rounded to the nearest binary64 double (so the string 5.005 parses
to the double 5635129033747333 / 2 ^ 50, slightly below 5.005). -/
def parseFloat64 (s : String) : Option Rat :=
  (parseFloat s).map roundToF64

/-- A JavaScript value as fed to the weight-checking helpers: either a
string from an input field or a number. -/
inductive JSVal where
  | str : String → JSVal
  | num : Rat → JSVal
deriving DecidableEq

/-- parseFloat applied to a string-or-number value, as used by
VALIDATOR.isViolation.  On a number argument parseFloat re-reads the
decimal rendering of the number, which is the identity on the exact
rationals of this model. -/
def jsParseFloat : JSVal → Option Rat
  | JSVal.str s => parseFloat s
  | JSVal.num q => some q

/-- VALIDATOR.WEIGHT_LIMITS.AXLE from validator.js: axle load limit in
tons. -/
def WEIGHT_LIMITS_AXLE : Rat := 11

/-- VALIDATOR.WEIGHT_LIMITS.TOTAL from validator.js: total weight limit in
tons. -/
def WEIGHT_LIMITS_TOTAL : Rat := 44

/-- VALIDATOR.isViolation from validator.js: parse the value, and report a
violation exactly when the parse succeeds and the number strictly exceeds
the limit. -/
def isViolation (value : JSVal) (limit : Rat) : Bool :=
  match jsParseFloat value with
  | some num => decide (limit < num)
  | none => false

/-- VALIDATOR.applyViolationHighlight from validator.js reduced to its
observable decision: the emphasised style set (bold, red, warning icon) is
applied exactly when the flag it receives is true. -/
def applyViolationHighlight (isViolating : Bool) : Bool :=
  isViolating

/-- VALIDATOR.checkViolation from validator.js: classify the value with
isViolation, hand that flag to applyViolationHighlight, and return it.
The first component records whether the highlight was applied, the second
the returned classification. -/
def checkViolation (value : JSVal) (limit : Rat) : Bool × Bool :=
  let isViolating := isViolation value limit
  (applyViolationHighlight isViolating, isViolating)

/-- CALCULATOR.fineRates.first from calculator.js. -/
def fineRates_first : Int := 300000

/-- CALCULATOR.fineRates.second from calculator.js. -/
def fineRates_second : Int := 600000

/-- CALCULATOR.fineRates.third from calculator.js. -/
def fineRates_third : Int := 1000000

/-- CALCULATOR.calculateFine from calculator.js: the base fine starts at
the first-offence rate, is replaced by the second rate when the count
equals 2 and by the third rate when the count is at least 3, and the
additional fine is 50000 per full 1000 kg of overweight. -/
def calculateFine (violationCount : Int) (overweightKg : Rat) : Int :=
  let baseFine := fineRates_first
  let baseFine := if violationCount = 2 then fineRates_second else baseFine
  let baseFine := if 3 ≤ violationCount then fineRates_third else baseFine
  let additionalFine := ⌊overweightKg / 1000⌋ * 50000
  baseFine + additionalFine

/-- CALCULATOR.calculateOverweight from calculator.js. -/
def calculateOverweight (actualWeight allowedWeight : Rat) : Rat :=
  max 0 (actualWeight - allowedWeight)

/-- CALCULATOR.calculateOverweightPercentage from calculator.js: the
guarded branch returns the string 0% (no decimal digit), otherwise the
percentage clamped at 0 is rendered with one fraction digit and a percent
sign. -/
def calculateOverweightPercentage (actualWeight allowedWeight : Rat) : String :=
  if allowedWeight ≤ 0 then "0%"
  else
    let percentage := (actualWeight - allowedWeight) / allowedWeight * 100
    toFixedStr 1 (max 0 percentage) ++ "%"

/-- CALCULATOR.calculateTotalWeight from calculator.js: sum the parseable
entries (NaN contributes 0), render the sum with toFixed(2) and read it
back with parseFloat. -/
def calculateTotalWeight (axleValues : List JSVal) : Rat :=
  let total := (axleValues.map (fun v =>
    match jsParseFloat v with
    | some n => n
    | none => 0)).sum
  (parseFloat (toFixedStr 2 total)).getD 0

/-- PDF_COORDINATES.page1 from pdf-coordinates.js: the hand-authored
baseline coordinate table of the detection report page. -/
def PDF_COORDINATES_page1 : ObjTable :=
  [("dateYear", { x := 285, y := 755, size := 11 }),
   ("dateMonth", { x := 330, y := 755, size := 11 }),
   ("dateDay", { x := 365, y := 755, size := 11 }),
   ("dateHour", { x := 400, y := 755, size := 11 }),
   ("dateMinute", { x := 435, y := 755, size := 11 }),
   ("location", { x := 145, y := 728, size := 10 }),
   ("checkpoint", { x := 145, y := 710, size := 10 }),
   ("driverName", { x := 145, y := 680, size := 11 }),
   ("driverAddress", { x := 145, y := 662, size := 10 }),
   ("phoneFixed", { x := 145, y := 644, size := 10 }),
   ("phoneMobile", { x := 350, y := 644, size := 10 }),
   ("vehicleType", { x := 145, y := 612, size := 11 }),
   ("vehicleRoute", { x := 300, y := 612, size := 10 }),
   ("plateNumber", { x := 145, y := 594, size := 11 }),
   ("cargo", { x := 350, y := 594, size := 10 }),
   ("widthMeasured", { x := 195, y := 548, size := 10 }),
   ("heightMeasured", { x := 275, y := 548, size := 10 }),
   ("lengthMeasured", { x := 355, y := 548, size := 10 }),
   ("widthViolation", { x := 195, y := 530, size := 10 }),
   ("heightViolation", { x := 275, y := 530, size := 10 }),
   ("lengthViolation", { x := 355, y := 530, size := 10 }),
   ("axle1Measured", { x := 170, y := 488, size := 9 }),
   ("axle2Measured", { x := 210, y := 488, size := 9 }),
   ("axle3Measured", { x := 250, y := 488, size := 9 }),
   ("axle4Measured", { x := 290, y := 488, size := 9 }),
   ("axle5Measured", { x := 330, y := 488, size := 9 }),
   ("axle6Measured", { x := 370, y := 488, size := 9 }),
   ("axle7Measured", { x := 410, y := 488, size := 9 }),
   ("axle8Measured", { x := 450, y := 488, size := 9 }),
   ("totalWeightMeasured", { x := 515, y := 488, size := 9 }),
   ("axle1Violation", { x := 170, y := 470, size := 9 }),
   ("axle2Violation", { x := 210, y := 470, size := 9 }),
   ("axle3Violation", { x := 250, y := 470, size := 9 }),
   ("axle4Violation", { x := 290, y := 470, size := 9 }),
   ("axle5Violation", { x := 330, y := 470, size := 9 }),
   ("axle6Violation", { x := 370, y := 470, size := 9 }),
   ("axle7Violation", { x := 410, y := 470, size := 9 }),
   ("axle8Violation", { x := 450, y := 470, size := 9 }),
   ("totalWeightViolation", { x := 515, y := 470, size := 9 }),
   ("authorYear", { x := 450, y := 155, size := 10 }),
   ("authorMonth", { x := 480, y := 155, size := 10 }),
   ("authorDay", { x := 510, y := 155, size := 10 }),
   ("authorOffice", { x := 190, y := 135, size := 10 }),
   ("authorPosition", { x := 190, y := 118, size := 10 }),
   ("authorName", { x := 190, y := 100, size := 11 })]

/-- PDF_COORDINATES.page2 from pdf-coordinates.js: the hand-authored
baseline coordinate table of the statement page. -/
def PDF_COORDINATES_page2 : ObjTable :=
  [("dateYear", { x := 285, y := 755, size := 11 }),
   ("dateMonth", { x := 330, y := 755, size := 11 }),
   ("dateDay", { x := 365, y := 755, size := 11 }),
   ("dateHour", { x := 400, y := 755, size := 11 }),
   ("dateMinute", { x := 435, y := 755, size := 11 }),
   ("location", { x := 145, y := 728, size := 10 }),
   ("checkpoint", { x := 145, y := 710, size := 10 }),
   ("vehicleType", { x := 145, y := 680, size := 11 }),
   ("plateNumber", { x := 280, y := 680, size := 11 }),
   ("widthMeasured", { x := 195, y := 598, size := 10 }),
   ("heightMeasured", { x := 275, y := 598, size := 10 }),
   ("lengthMeasured", { x := 355, y := 598, size := 10 }),
   ("widthViolation", { x := 195, y := 580, size := 10 }),
   ("heightViolation", { x := 275, y := 580, size := 10 }),
   ("lengthViolation", { x := 355, y := 580, size := 10 }),
   ("axle1Measured", { x := 170, y := 538, size := 9 }),
   ("axle2Measured", { x := 210, y := 538, size := 9 }),
   ("axle3Measured", { x := 250, y := 538, size := 9 }),
   ("axle4Measured", { x := 290, y := 538, size := 9 }),
   ("axle5Measured", { x := 330, y := 538, size := 9 }),
   ("axle6Measured", { x := 370, y := 538, size := 9 }),
   ("axle7Measured", { x := 410, y := 538, size := 9 }),
   ("axle8Measured", { x := 450, y := 538, size := 9 }),
   ("totalWeightMeasured", { x := 515, y := 538, size := 9 }),
   ("axle1Violation", { x := 170, y := 520, size := 9 }),
   ("axle2Violation", { x := 210, y := 520, size := 9 }),
   ("axle3Violation", { x := 250, y := 520, size := 9 }),
   ("axle4Violation", { x := 290, y := 520, size := 9 }),
   ("axle5Violation", { x := 330, y := 520, size := 9 }),
   ("axle6Violation", { x := 370, y := 520, size := 9 }),
   ("axle7Violation", { x := 410, y := 520, size := 9 }),
   ("axle8Violation", { x := 450, y := 520, size := 9 }),
   ("totalWeightViolation", { x := 515, y := 520, size := 9 }),
   ("statementYear", { x := 450, y := 275, size := 10 }),
   ("statementMonth", { x := 480, y := 275, size := 10 }),
   ("statementDay", { x := 510, y := 275, size := 10 }),
   ("witness1Office", { x := 190, y := 255, size := 10 }),
   ("witness1Position", { x := 190, y := 238, size := 10 }),
   ("witness1Name", { x := 280, y := 238, size := 11 }),
   ("witness2Office", { x := 190, y := 218, size := 10 }),
   ("witness2Position", { x := 190, y := 201, size := 10 }),
   ("witness2Name", { x := 280, y := 201, size := 11 }),
   ("witness3Office", { x := 190, y := 181, size := 10 }),
   ("witness3Position", { x := 190, y := 164, size := 10 }),
   ("witness3Name", { x := 280, y := 164, size := 11 })]

/-- PDF_COORDINATES as a mapping from page key to page table. -/
def PDF_COORDINATES : List (String × ObjTable) :=
  [("page1", PDF_COORDINATES_page1), ("page2", PDF_COORDINATES_page2)]

/-- Object spread merge as used in getPageCoordinates: the base table
spread first, the override spread second, so that the override binding for
a key shadows the base binding under objLookup. -/
def spreadMerge {α : Type} (base override : List (String × α)) : List (String × α) :=
  base ++ override

/-- getPageCoordinates from calculator.js (pdf-handler draft), with the
globals as parameters: when an AI coordinate store is present and holds a
table for the requested page, the manual page table and the AI page table
are merged field by field with the AI entry winning; otherwise the manual
page table alone is used (or an empty table when the page key is
missing). -/
def getPageCoordinates (manualPages : List (String × ObjTable))
    (ai : Option (List (String × ObjTable))) (pageNum : Nat) : ObjTable :=
  let pageKey := "page" ++ natStr pageNum
  let manualCoords := (objLookup manualPages pageKey).getD []
  match ai with
  | some aiPages =>
    match objLookup aiPages pageKey with
    | some aiTable => spreadMerge manualCoords aiTable
    | none => manualCoords
  | none => manualCoords

/-- getFieldCoordinate from pdf-generator.js (Gemini analyzer section),
with the stored AI coordinates and the manual table as parameters: the AI
entry for the field on the requested page is returned when present,
otherwise the manual entry for that field, otherwise none. -/
def getFieldCoordinate (ai : Option (List (String × ObjTable)))
    (manualPages : List (String × ObjTable)) (fieldName : String) (pageNum : Nat) :
    Option Coord :=
  let pageKey := "page" ++ natStr pageNum
  let fromAi : Option Coord :=
    match ai with
    | some aiPages =>
      match objLookup aiPages pageKey with
      | some pageTable => objLookup pageTable fieldName
      | none => none
    | none => none
  match fromAi with
  | some c => some c
  | none =>
    match objLookup manualPages pageKey with
    | some manualTable => objLookup manualTable fieldName
    | none => none

/-- Resolution rule as the specification words it (coordinate resolver,
spec section 4.1): return the override entry for the field when the
override table has one, otherwise fall back to the baseline entry.  This
definition follows the specification text and is compared against the
source functions. -/
def resolveSpec (overrideTable baseline : ObjTable) (fieldName : String) : Option Coord :=
  match objLookup overrideTable fieldName with
  | some c => some c
  | none => objLookup baseline fieldName

/-- VIOLATION_LIMITS.AXLE from calculator.js (pdf-handler draft): axle
load limit in tons used by the PDF assembly. -/
def VIOLATION_LIMITS_AXLE : Rat := 11

/-- VIOLATION_LIMITS.TOTAL from calculator.js (pdf-handler draft): total
weight limit in tons used by the PDF assembly. -/
def VIOLATION_LIMITS_TOTAL : Rat := 44

/-- Reading a form field and parsing it as a number, the idiom
parseFloat(formData[fieldName]) of the assembly routines: a missing field
is undefined, and parseFloat of undefined is NaN (none). -/
def formParse (formData : FormData) (fieldName : String) : Option Rat :=
  match objLookup formData fieldName with
  | some s => parseFloat s
  | none => none

/-- Reading a form field as the binary64 double parseFloat produces. -/
def formParse64 (formData : FormData) (fieldName : String) : Option Rat :=
  (formParse formData fieldName).map roundToF64

/-- Field name of an axle measured-value slot. -/
def axleMeasuredName (i : Nat) : String :=
  "axle" ++ natStr i ++ "Measured"

/-- Field name of an axle violation-value slot. -/
def axleViolationName (i : Nat) : String :=
  "axle" ++ natStr i ++ "Violation"

/-- The eight axle measured-value field names, in loop order. -/
def axleMeasuredFields : List String :=
  [axleMeasuredName 1, axleMeasuredName 2, axleMeasuredName 3, axleMeasuredName 4,
   axleMeasuredName 5, axleMeasuredName 6, axleMeasuredName 7, axleMeasuredName 8]

/-- The eight axle violation-value field names, in loop order. -/
def axleViolationFields : List String :=
  [axleViolationName 1, axleViolationName 2, axleViolationName 3, axleViolationName 4,
   axleViolationName 5, axleViolationName 6, axleViolationName 7, axleViolationName 8]

/-- Style of an axle measured value as insertAxleMeasurements places it:
two fraction digits, bold and red exactly when the value strictly exceeds
the axle limit. -/
def measuredAxleStyle (axleValue : Rat) (c : Coord) : Placement :=
  { text := toFixedStr 2 axleValue, x := c.x, y := c.y, size := c.size,
    isBold := decide (VIOLATION_LIMITS_AXLE < axleValue),
    color := if VIOLATION_LIMITS_AXLE < axleValue then PDF_CONFIG_red else PDF_CONFIG_black }

/-- Style of an axle violation value as insertAxleViolations places it:
two fraction digits, default weight and color. -/
def plainAxleStyle (axleValue : Rat) (c : Coord) : Placement :=
  { text := toFixedStr 2 axleValue, x := c.x, y := c.y, size := c.size,
    isBold := false, color := PDF_CONFIG_black }

/-- The shared loop body of insertAxleMeasurements and
insertAxleViolations from calculator.js: for each field name in order,
parse the form value, and when it is a number, strictly positive and the
coordinate table has an entry for the field, place it with the given style
and add it to the running total; otherwise skip it entirely.  The running
total here is the exact rational sum, which the coverage-decomposition
claim uses: which slots contribute is decided by parsing, positivity and
coverage alone, never by rounding.  The binary64 accumulation of the same
loop, decisive for the placed-total claim, is axleGo64 below. -/
def axleGo (style : Rat → Coord → Placement) (formData : FormData)
    (coords : ObjTable) : List String → List Placement × Rat
  | [] => ([], 0)
  | fieldName :: rest =>
    let r := axleGo style formData coords rest
    match formParse formData fieldName with
    | some axleValue =>
      if 0 < axleValue then
        match objLookup coords fieldName with
        | some c => (style axleValue c :: r.1, axleValue + r.2)
        | none => r
      else r
    | none => r

/-- insertAxleMeasurements from calculator.js: place the eight measured
axle values (bold and red beyond the axle limit) and return the placements
together with the accumulated total measured weight. -/
def insertAxleMeasurements (formData : FormData) (coords : ObjTable) :
    List Placement × Rat :=
  axleGo measuredAxleStyle formData coords axleMeasuredFields

/-- insertAxleViolations from calculator.js: place the eight axle
violation values and return the placements together with the accumulated
total violation weight. -/
def insertAxleViolations (formData : FormData) (coords : ObjTable) :
    List Placement × Rat :=
  axleGo plainAxleStyle formData coords axleViolationFields

/-- insertTotalWeights from calculator.js: place the measured total when
it is strictly positive and its coordinate exists, bold and red exactly
when it strictly exceeds the total limit; place the violation total when
it is strictly positive and its coordinate exists, in the default style.
The two components are the optional placement call for each total. -/
def insertTotalWeights (totalMeasured totalViolation : Rat) (coords : ObjTable) :
    Option Placement × Option Placement :=
  let measured : Option Placement :=
    if 0 < totalMeasured then
      match objLookup coords "totalWeightMeasured" with
      | some c =>
        some { text := toFixedStr 2 totalMeasured, x := c.x, y := c.y, size := c.size,
               isBold := decide (VIOLATION_LIMITS_TOTAL < totalMeasured),
               color := if VIOLATION_LIMITS_TOTAL < totalMeasured then PDF_CONFIG_red
                        else PDF_CONFIG_black }
      | none => none
    else none
  let violation : Option Placement :=
    if 0 < totalViolation then
      match objLookup coords "totalWeightViolation" with
      | some c =>
        some { text := toFixedStr 2 totalViolation, x := c.x, y := c.y, size := c.size,
               isBold := false, color := PDF_CONFIG_black }
      | none => none
    else none
  (measured, violation)

/-- insertAxleWeights from calculator.js: the full weight-section
placement sequence of one document, in order. -/
def insertAxleWeights (formData : FormData) (coords : ObjTable) : List Placement :=
  let m := insertAxleMeasurements formData coords
  let v := insertAxleViolations formData coords
  let t := insertTotalWeights m.2 v.2 coords
  m.1 ++ v.1 ++ t.1.toList ++ t.2.toList

/-- The loop of insertAxleMeasurements and insertAxleViolations with the
source's binary64 arithmetic: the running total accumulates left to right
as the loop does (totalMeasured += axleValue, rounding after every
addition), and a slot contributes exactly when its value parses, is
strictly positive and the coordinate table covers the field. -/
def axleGo64 (style : Rat → Coord → Placement) (formData : FormData)
    (coords : ObjTable) : Rat → List String → List Placement × Rat
  | total, [] => ([], total)
  | total, fieldName :: rest =>
    match formParse64 formData fieldName with
    | some axleValue =>
      if 0 < axleValue then
        match objLookup coords fieldName with
        | some c =>
          let r := axleGo64 style formData coords (f64add total axleValue) rest
          (style axleValue c :: r.1, r.2)
        | none => axleGo64 style formData coords total rest
      else axleGo64 style formData coords total rest
    | none => axleGo64 style formData coords total rest

/-- insertAxleMeasurements from calculator.js with binary64 accumulation:
the placements of the measured axle values and the accumulated double
total. -/
def insertAxleMeasurements64 (formData : FormData) (coords : ObjTable) :
    List Placement × Rat :=
  axleGo64 measuredAxleStyle formData coords 0 axleMeasuredFields

/-- insertAxleViolations from calculator.js with binary64 accumulation. -/
def insertAxleViolations64 (formData : FormData) (coords : ObjTable) :
    List Placement × Rat :=
  axleGo64 plainAxleStyle formData coords 0 axleViolationFields

/-- Binary64 left-to-right accumulation of the strictly positive entries
of a list of parse results: unparseable and non-positive slots are
skipped, every addition rounds to the nearest double. -/
def f64PositiveSum (values : List (Option Rat)) : Rat :=
  values.foldl (fun acc v =>
    match v with
    | some q => if 0 < q then f64add acc q else acc
    | none => acc) 0

/-- The sum the amended claim describes for the measured total: the
binary64 accumulation of the positive parseable slot values, in slot
order. -/
def axleMeasuredPositiveSum64 (formData : FormData) : Rat :=
  f64PositiveSum (axleMeasuredFields.map (formParse64 formData))

/-- The text placed for the measured total by the calculator.js assembly
path under binary64 arithmetic, when a placement call for it is issued at
all. -/
def reportTotalMeasuredText64 (formData : FormData) (coords : ObjTable) : Option String :=
  ((insertTotalWeights (insertAxleMeasurements64 formData coords).2
      (insertAxleViolations64 formData coords).2 coords).1).map Placement.text

/-- formatNumber from pdf-generator.js with its default of two fraction
digits: empty or missing values and failed parses render as the empty
string, otherwise the parsed number is rendered with toFixed. -/
def formatNumber (value : Option JSVal) (decimals : Nat) : String :=
  match value with
  | none => ""
  | some (JSVal.str s) =>
    if s = "" then ""
    else
      match parseFloat s with
      | some n => toFixedStr decimals n
      | none => ""
  | some (JSVal.num n) => toFixedStr decimals n

/-- The total measured weight as the fillReportPdf draft in
pdf-generator.js computes it, in binary64: parseFloat of each axle slot
with the idiom x or 0, accumulated left to right with rounding after
every addition, so NaN contributes 0 but every parsed number, negative
ones included, is added. -/
def fillReportTotalMeasured64 (formData : FormData) : Rat :=
  axleMeasuredFields.foldl
    (fun acc fieldName => f64add acc ((formParse64 formData fieldName).getD 0)) 0

/-- The text the fillReportPdf draft places at the measured-total
coordinate of page 1: formatNumber of its binary64 total, placed only
when the total is strictly positive. -/
def fillReportTotalMeasuredText64 (formData : FormData) : Option String :=
  if 0 < fillReportTotalMeasured64 formData then
    some (formatNumber (some (JSVal.num (fillReportTotalMeasured64 formData))) 2)
  else none

/-- One witness entry of the statement document: office, position and
name, as collected by the UI layer. -/
structure WitnessEntry where
  office : String
  position : String
  name : String
deriving DecidableEq

/-- Placement of one field of one witness as insertWitnesses does it: the
value is placed when it is a non-empty string and the coordinate table has
an entry under the slot key, in the default style. -/
def witnessFieldPlacement (value : String) (key : String) (coords : ObjTable) :
    List Placement :=
  if value = "" then []
  else
    match objLookup coords key with
    | some c =>
      [{ text := value, x := c.x, y := c.y, size := c.size,
         isBold := false, color := PDF_CONFIG_black }]
    | none => []

/-- The three placements of the witness at (zero-based) loop index i:
office, position and name, at the witness-slot keys numbered i plus
one. -/
def witnessOnePlacements (w : WitnessEntry) (witnessNum : Nat) (coords : ObjTable) :
    List Placement :=
  witnessFieldPlacement w.office ("witness" ++ natStr witnessNum ++ "Office") coords ++
  witnessFieldPlacement w.position ("witness" ++ natStr witnessNum ++ "Position") coords ++
  witnessFieldPlacement w.name ("witness" ++ natStr witnessNum ++ "Name") coords

/-- The loop of insertWitnesses over the chosen indices. -/
def witnessLoop (witnesses : List WitnessEntry) (coords : ObjTable) :
    List Nat → List Placement
  | [] => []
  | i :: rest =>
    (match witnesses[i]? with
     | some w => witnessOnePlacements w (i + 1) coords
     | none => []) ++ witnessLoop witnesses coords rest

/-- insertWitnesses from calculator.js (and the identical witness block of
fillStatementPdf in pdf-generator.js): nothing for an empty sequence,
otherwise the loop runs for min(length, 3) indices, so at most the first
three entries are placed, in order. -/
def insertWitnesses (witnesses : List WitnessEntry) (coords : ObjTable) :
    List Placement :=
  if witnesses.isEmpty then []
  else witnessLoop witnesses coords (List.range (min witnesses.length 3))

/-- Splitting a character list at every occurrence of a separator, the
behaviour of the JavaScript String.prototype.split with a one-character
separator: n occurrences of the separator yield n plus one parts, empty
parts included. -/
def splitChar (sep : Char) : List Char → List (List Char)
  | [] => [[]]
  | c :: rest =>
    let r := splitChar sep rest
    if c = sep then [] :: r
    else
      match r with
      | h :: t => (c :: h) :: t
      | [] => [[c]]

/-- JavaScript String.prototype.split with a one-character separator. -/
def jsSplit (s : String) (sep : Char) : List String :=
  (splitChar sep s.data).map String.mk

/-- The record parseDatetimeForPdf returns: the five datetime components
as strings. -/
structure DatetimeParts where
  year : String
  month : String
  day : String
  hour : String
  minute : String
deriving DecidableEq

/-- parseDatetimeForPdf from calculator.js, identical to parseDatetime in
pdf-generator.js: a missing or empty input yields all-empty components;
otherwise the input is split at T, the date part at dashes, and the time
part, missing or empty replaced by 00:00, at the colon; each missing
component defaults to the empty string. -/
def parseDatetimeForPdf (datetimeStr : Option String) : DatetimeParts :=
  match datetimeStr with
  | none => { year := "", month := "", day := "", hour := "", minute := "" }
  | some s =>
    if s = "" then { year := "", month := "", day := "", hour := "", minute := "" }
    else
      let parts := jsSplit s 'T'
      let datePart := parts[0]?.getD ""
      let timePart := parts[1]?
      let dparts := jsSplit datePart '-'
      let tstr :=
        match timePart with
        | none => "00:00"
        | some tp => if tp = "" then "00:00" else tp
      let tparts := jsSplit tstr ':'
      { year := dparts[0]?.getD "", month := dparts[1]?.getD "",
        day := dparts[2]?.getD "",
        hour := tparts[0]?.getD "", minute := tparts[1]?.getD "" }

/-- Per-slot contribution to an accumulated axle total, isolating the
condition under which insertAxleMeasurements and insertAxleViolations let
a slot contribute: the parsed value when the parse succeeds, the value is
strictly positive and the coordinate table covers the field, and zero
otherwise. -/
def axleSlotContrib (formData : FormData) (coords : ObjTable) (fieldName : String) : Rat :=
  match formParse formData fieldName with
  | some q => if 0 < q ∧ (objLookup coords fieldName).isSome then q else 0
  | none => 0

/-- The example slot values of the claim: axles 1 to 6 carry the strings
10.5, empty, abc, 0, -3 and 5.005; axles 7 and 8 are absent. -/
def exampleAxleForm : FormData :=
  [("axle1Measured", "10.5"), ("axle2Measured", ""), ("axle3Measured", "abc"),
   ("axle4Measured", "0"), ("axle5Measured", "-3"), ("axle6Measured", "5.005")]

/-- A form carrying one positive parseable axle value, used to contrast an
absent coordinate entry with a covering table. -/
def coverageDemoForm : FormData :=
  [("axle3Measured", "5.00")]

/-- Five witness entries, to exercise the cap of three. -/
def demoWitnesses : List WitnessEntry :=
  [{ office := "officeA", position := "posA", name := "nameA" },
   { office := "officeB", position := "posB", name := "nameB" },
   { office := "officeC", position := "posC", name := "nameC" },
   { office := "officeD", position := "posD", name := "nameD" },
   { office := "officeE", position := "posE", name := "nameE" }]

/-- Per-slot decomposition of the running total of the shared axle loop:
the accumulated total is the sum of the per-slot contributions, each
conditional on a successful parse, strict positivity and coordinate
coverage. -/
theorem axleGo_snd (style : Rat → Coord → Placement) (formData : FormData)
    (coords : ObjTable) :
    ∀ names : List String,
      (axleGo style formData coords names).2 =
        (names.map (axleSlotContrib formData coords)).sum := by
  intro names
  induction names with
  | nil => simp [axleGo]
  | cons n rest ih =>
    simp only [axleGo, List.map_cons, List.sum_cons]
    cases hp : formParse formData n with
    | none => simp [axleSlotContrib, hp, ih]
    | some q =>
      by_cases hq : 0 < q
      · cases hc : objLookup coords n with
        | some c => simp [axleSlotContrib, hp, hq, hc, ih]
        | none => simp [axleSlotContrib, hp, hq, hc, ih]
      · simp [axleSlotContrib, hp, hq, ih]

/-- On a coordinate table covering every listed field, the running total
of the binary64 axle loop is the binary64 accumulation of the strictly
positive parsed values, from any starting total: which slots contribute
is decided by parsing and positivity alone. -/
theorem axleGo64_snd (style : Rat → Coord → Placement) (formData : FormData)
    (coords : ObjTable) :
    ∀ (names : List String) (total : Rat),
      (∀ n ∈ names, (objLookup coords n).isSome = true) →
      (axleGo64 style formData coords total names).2 =
        (names.map (formParse64 formData)).foldl (fun acc v =>
          match v with
          | some q => if 0 < q then f64add acc q else acc
          | none => acc) total := by
  intro names
  induction names with
  | nil => intro total _; rfl
  | cons n rest ih =>
    intro total hcov
    have hn : (objLookup coords n).isSome = true := hcov n (by simp)
    obtain ⟨c, hc⟩ := Option.isSome_iff_exists.mp hn
    have hrest : ∀ m ∈ rest, (objLookup coords m).isSome = true :=
      fun m hm => hcov m (by simp [hm])
    simp only [axleGo64, List.map_cons, List.foldl_cons]
    cases hp : formParse64 formData n with
    | none => simpa using ih total hrest
    | some q =>
      by_cases hq : 0 < q
      · simp only [hp, if_pos hq, hc]
        exact ih (f64add total q) hrest
      · simp only [hp, if_neg hq]
        exact ih total hrest

/-- Lookup on a spread merge: the override binding wins, with fallback to
the base table, field by field. -/
theorem objLookup_spreadMerge {α : Type} (base override : List (String × α)) (k : String) :
    objLookup (spreadMerge base override) k =
      match objLookup override k with
      | some c => some c
      | none => objLookup base k := by
  induction base with
  | nil =>
    simp only [spreadMerge, List.nil_append]
    cases objLookup override k <;> rfl
  | cons kv rest ih =>
    obtain ⟨key, v⟩ := kv
    simp only [spreadMerge, List.cons_append, objLookup, List.append_eq] at ih ⊢
    rw [ih]
    cases objLookup override k <;> simp

/-- The witness loop only looks at the entries its index list reaches. -/
theorem witnessLoop_congr (coords : ObjTable) (ws₁ ws₂ : List WitnessEntry) :
    ∀ is : List Nat, (∀ i ∈ is, ws₁[i]? = ws₂[i]?) →
      witnessLoop ws₁ coords is = witnessLoop ws₂ coords is := by
  intro is
  induction is with
  | nil => intro _; rfl
  | cons i rest ih =>
    intro h
    simp only [witnessLoop]
    rw [h i (by simp), ih (fun j hj => h j (by simp [hj]))]

/-- insertWitnesses depends only on the first three entries of the
sequence. -/
theorem insertWitnesses_take3 (ws : List WitnessEntry) (coords : ObjTable) :
    insertWitnesses ws coords = insertWitnesses (ws.take 3) coords := by
  cases ws with
  | nil => rfl
  | cons w rest =>
    have hlen : (List.take 3 (w :: rest)).length = min 3 (w :: rest).length :=
      List.length_take 3 (w :: rest)
    have hmin : min (List.take 3 (w :: rest)).length 3 = min (w :: rest).length 3 := by
      rw [hlen]; omega
    simp only [insertWitnesses, List.take_cons, List.isEmpty_cons]
    rw [hmin]
    refine witnessLoop_congr coords (w :: rest) ((w :: rest).take 3) _ (fun i hi => ?_)
    have hi3 : i < 3 := by
      have := List.mem_range.mp hi
      omega
    exact (List.getElem?_take_of_lt hi3).symm

/-- Splitting at a separator that does not occur yields the whole list as
the single part. -/
theorem splitChar_of_no_sep (sep : Char) :
    ∀ cs : List Char, (∀ c ∈ cs, c ≠ sep) → splitChar sep cs = [cs] := by
  intro cs
  induction cs with
  | nil => intro _; rfl
  | cons c rest ih =>
    intro h
    have hc : ¬(c = sep) := h c (by simp)
    simp only [splitChar, if_neg hc]
    rw [ih (fun d hd => h d (by simp [hd]))]

/-- Claim C1, counterexample: the claim as stated fails at its own
example under the source's binary64 arithmetic, on both cited code paths.
The decimal 5.005 is not representable: parseFloat yields the double just
below it, so on the calculator.js path the contributing slots 10.5 and
5.005 accumulate to the double 4364269513898721 / 2 ^ 48, which is
15.504999999999999..., and toFixed, which rounds the double's exact value
and not the decimal sum, places 15.50 - not the 15.51 the claim asserts
as the half-up rounding of the exact sum.  On the fillReportPdf draft the
accumulation idiom keeps every parsed number, so the negative entry -3
also contributes, against the claim's exclusion of negatives, and the
placed text there is 12.50. -/
theorem claim_C1_counterexample :
    parseFloat64 "5.005" = some (5635129033747333 / 2 ^ 50) ∧
    axleMeasuredPositiveSum64 exampleAxleForm = 4364269513898721 / 2 ^ 48 ∧
    reportTotalMeasuredText64 exampleAxleForm PDF_COORDINATES_page1 = some "15.50" ∧
    reportTotalMeasuredText64 exampleAxleForm PDF_COORDINATES_page1 ≠ some "15.51" ∧
    (formParse64 exampleAxleForm "axle5Measured").getD 0 = -3 ∧
    fillReportTotalMeasuredText64 exampleAxleForm = some "12.50" :=
  ⟨by decide, by decide, by decide, by decide, by decide, by decide⟩

/-- Claim C1, amended: on the calculator.js assembly path
(insertAxleMeasurements feeding insertTotalWeights, with the baseline
page-1 coordinate table, which covers all eight axle slots), for every
form data the accumulated total is the binary64 accumulation, in slot
order, of exactly those slot values that parse as numbers and are
strictly greater than 0 - unparseable, zero and negative entries
contribute nothing on this path - and whenever that total is positive the
text placed at the measured-total coordinate renders that double with two
fraction digits.  On the example inputs the placed text is 15.50, not
15.51: binary64 puts the accumulated total just below the 15.505 half-way
boundary.  The duplicate fillReportPdf draft in pdf-generator.js instead
also adds negative parsed values (see the counterexample). -/
theorem claim_C1 (formData : FormData) :
    (insertAxleMeasurements64 formData PDF_COORDINATES_page1).2 =
      axleMeasuredPositiveSum64 formData ∧
    (0 < axleMeasuredPositiveSum64 formData →
      reportTotalMeasuredText64 formData PDF_COORDINATES_page1 =
        some (toFixedStr 2 (axleMeasuredPositiveSum64 formData))) := by
  have hsum : (insertAxleMeasurements64 formData PDF_COORDINATES_page1).2 =
      axleMeasuredPositiveSum64 formData := by
    unfold insertAxleMeasurements64 axleMeasuredPositiveSum64 f64PositiveSum
    exact axleGo64_snd measuredAxleStyle formData PDF_COORDINATES_page1
      axleMeasuredFields 0 (by decide)
  refine ⟨hsum, fun hpos => ?_⟩
  have hc : objLookup PDF_COORDINATES_page1 "totalWeightMeasured" =
      some { x := 515, y := 488, size := 9 } := by decide
  unfold reportTotalMeasuredText64 insertTotalWeights
  rw [hsum, hc]
  simp [hpos]

/-- Claim C1, witness: on the example slot values 10.5, empty, abc, 0, -3
and 5.005 the calculator.js assembly path places 15.50 as the measured
total, the two-decimal rendering of the binary64 accumulation of 10.5 and
the double nearest 5.005. -/
theorem claim_C1_witness :
    reportTotalMeasuredText64 exampleAxleForm PDF_COORDINATES_page1 = some "15.50" :=
  ((claim_C1 exampleAxleForm).2 (by decide)).trans (by decide)

/-- Claim C2: threshold evaluation classifies a numeric value as a
violation exactly when it strictly exceeds the limit, so a value of
exactly 11.00 against the limit 11.00 is compliant and 11.01 is not. -/
theorem claim_C2 :
    (∀ value limit : Rat, isViolation (JSVal.num value) limit = decide (limit < value)) ∧
    isViolation (JSVal.num 11) 11 = false ∧
    isViolation (JSVal.num (1101 / 100)) 11 = true :=
  ⟨fun _ _ => rfl, by decide, by decide⟩

/-- Claim C3: coordinate resolution prefers the override, per field.  The
spread merge of getPageCoordinates and the lookup chain of
getFieldCoordinate both realise the specification's resolution rule: the
override entry for a field when the override table has one, otherwise the
baseline entry for that same field; a partial override table therefore
does not displace the baseline for fields it lacks, as the two concrete
conjuncts show on a baseline of two fields and an override of one. -/
theorem claim_C3 :
    (∀ (base override : ObjTable) (fieldName : String),
       objLookup (spreadMerge base override) fieldName = resolveSpec override base fieldName) ∧
    (∀ (aiPages manualPages : List (String × ObjTable)) (fieldName : String) (pageNum : Nat)
       (ovTable : ObjTable),
       objLookup aiPages ("page" ++ natStr pageNum) = some ovTable →
       getFieldCoordinate (some aiPages) manualPages fieldName pageNum =
         resolveSpec ovTable
           ((objLookup manualPages ("page" ++ natStr pageNum)).getD []) fieldName) ∧
    (∀ (manualPages aiPages : List (String × ObjTable)) (pageNum : Nat) (fieldName : String)
       (ovTable : ObjTable),
       objLookup aiPages ("page" ++ natStr pageNum) = some ovTable →
       objLookup (getPageCoordinates manualPages (some aiPages) pageNum) fieldName =
         resolveSpec ovTable
           ((objLookup manualPages ("page" ++ natStr pageNum)).getD []) fieldName) ∧
    objLookup (spreadMerge ([("f", { x := 10, y := 10, size := 11 })] : ObjTable)
        ([("f", { x := 99, y := 99, size := 11 })] : ObjTable)) "f" =
      some { x := 99, y := 99, size := 11 } ∧
    objLookup (spreadMerge
        ([("f", { x := 10, y := 10, size := 11 }),
          ("g", { x := 20, y := 20, size := 11 })] : ObjTable)
        ([("f", { x := 99, y := 99, size := 11 })] : ObjTable)) "g" =
      some { x := 20, y := 20, size := 11 } := by
  refine ⟨?_, ?_, ?_, by decide, by decide⟩
  · intro base override fieldName
    unfold resolveSpec
    rw [objLookup_spreadMerge]
    cases objLookup override fieldName <;> rfl
  · intro aiPages manualPages fieldName pageNum ovTable h
    simp only [getFieldCoordinate, resolveSpec, h]
    cases objLookup ovTable fieldName with
    | some c => rfl
    | none =>
      cases hm : objLookup manualPages ("page" ++ natStr pageNum) with
      | some t => simp [hm]
      | none => simp [hm, objLookup]
  · intro manualPages aiPages pageNum fieldName ovTable h
    simp only [getPageCoordinates, h]
    rw [objLookup_spreadMerge]
    unfold resolveSpec
    cases objLookup ovTable fieldName <;> rfl

/-- Claim C3, witness: with a stored AI table for page 1 holding an entry
for driverName, getFieldCoordinate returns that entry rather than the
baseline one of PDF_COORDINATES. -/
theorem claim_C3_witness :
    getFieldCoordinate (some [("page1", [("driverName", { x := 1, y := 2, size := 3 })])])
      PDF_COORDINATES "driverName" 1 = some { x := 1, y := 2, size := 3 } :=
  (claim_C3.2.1 [("page1", [("driverName", { x := 1, y := 2, size := 3 })])]
    PDF_COORDINATES "driverName" 1 [("driverName", { x := 1, y := 2, size := 3 })]
    (by decide)).trans (by decide)

/-- Claim C4, counterexample: the guarded branch of
calculateOverweightPercentage returns the string 0% with no decimal digit,
so at actual 0 and allowed 0 the result is 0% and not 0.0% as the claim
states. -/
theorem claim_C4_counterexample :
    calculateOverweightPercentage 0 0 = "0%" ∧
    calculateOverweightPercentage 0 0 ≠ "0.0%" :=
  ⟨by decide, by decide⟩

/-- Claim C4, amended: calculateOverweightPercentage returns the string 0%
(not 0.0%) whenever allowed is at most 0, the division guard included, and
otherwise returns the maximum of 0 and the overweight percentage rendered
with one fraction digit and a percent sign, so actual 50 against allowed
40 gives 25.0%. -/
theorem claim_C4 (actualWeight allowedWeight : Rat) :
    (allowedWeight ≤ 0 → calculateOverweightPercentage actualWeight allowedWeight = "0%") ∧
    (0 < allowedWeight → calculateOverweightPercentage actualWeight allowedWeight =
        toFixedStr 1 (max 0 ((actualWeight - allowedWeight) / allowedWeight * 100)) ++ "%") ∧
    calculateOverweightPercentage 50 40 = "25.0%" := by
  refine ⟨fun h => ?_, fun h => ?_, by decide⟩
  · simp [calculateOverweightPercentage, h]
  · simp [calculateOverweightPercentage, not_le.mpr h]

/-- Claim C4, witness: the guarded case at 0 and 0 yields 0%, and 50
against 40 yields 25.0%. -/
theorem claim_C4_witness :
    calculateOverweightPercentage 0 0 = "0%" ∧ calculateOverweightPercentage 50 40 = "25.0%" :=
  ⟨(claim_C4 0 0).1 (by decide), (claim_C4 50 40).2.2⟩

/-- Claim C5: for every violation count and non-negative overweight in
kilograms, calculateFine pays the tier base (count 1 gives 300000, count 2
gives 600000, count at least 3 gives 1000000) plus 50000 per full 1000 kg
of overweight; in particular fine(1, 0) is 300000, fine(2, 0) is 600000
and fine(3, 2500) is 1100000. -/
theorem claim_C5 (violationCount : Int) (overweightKg : Rat) (hkg : 0 ≤ overweightKg) :
    (violationCount = 1 → calculateFine violationCount overweightKg =
        300000 + ⌊overweightKg / 1000⌋ * 50000) ∧
    (violationCount = 2 → calculateFine violationCount overweightKg =
        600000 + ⌊overweightKg / 1000⌋ * 50000) ∧
    (3 ≤ violationCount → calculateFine violationCount overweightKg =
        1000000 + ⌊overweightKg / 1000⌋ * 50000) ∧
    0 ≤ ⌊overweightKg / 1000⌋ ∧
    calculateFine 1 0 = 300000 ∧ calculateFine 2 0 = 600000 ∧
    calculateFine 3 2500 = 1100000 := by
  refine ⟨fun h => ?_, fun h => ?_, fun h => ?_, ?_, by decide, by decide, by decide⟩
  · subst h
    norm_num [calculateFine, fineRates_first]
  · subst h
    norm_num [calculateFine, fineRates_second]
  · have h2 : ¬(violationCount = 2) := by omega
    simp [calculateFine, h2, h, fineRates_third]
  · exact Int.floor_nonneg.mpr (div_nonneg hkg (by norm_num))

/-- Claim C5, witness: the three concrete fine evaluations of the claim,
with the non-negativity hypothesis discharged at 0 and 2500. -/
theorem claim_C5_witness :
    calculateFine 1 0 = 300000 ∧ calculateFine 2 0 = 600000 ∧
    calculateFine 3 2500 = 1100000 :=
  ⟨(claim_C5 1 0 (by decide)).2.2.2.2.1, (claim_C5 2 0 (by decide)).2.2.2.2.2.1,
   (claim_C5 3 2500 (by decide)).2.2.2.2.2.2⟩

/-- Claim C6: witness placement caps at three.  insertWitnesses depends
only on the first three entries of the sequence, for every sequence and
coordinate table (entries beyond the third are ignored, and the function
is total, so no error arises for them); with five entries and the
baseline statement-page table, exactly the first three entries appear, in
order, at the witness-slot-1..3 coordinates. -/
theorem claim_C6 :
    (∀ (witnesses : List WitnessEntry) (coords : ObjTable),
       insertWitnesses witnesses coords = insertWitnesses (witnesses.take 3) coords) ∧
    (insertWitnesses demoWitnesses PDF_COORDINATES_page2).map (fun p => (p.text, p.x, p.y)) =
      [("officeA", 190, 255), ("posA", 190, 238), ("nameA", 280, 238),
       ("officeB", 190, 218), ("posB", 190, 201), ("nameB", 280, 201),
       ("officeC", 190, 181), ("posC", 190, 164), ("nameC", 280, 164)] ∧
    insertWitnesses demoWitnesses PDF_COORDINATES_page2 =
      insertWitnesses (demoWitnesses.take 3) PDF_COORDINATES_page2 :=
  ⟨insertWitnesses_take3, by decide, by decide⟩

/-- Claim C7: insertTotalWeights issues a placement call for each total
exactly when that total is strictly positive and its coordinate entry
exists (so a zero sum produces no placement call), and the measured-total
placement is bold with the alert color exactly when the total strictly
exceeds the 44.00-ton limit. -/
theorem claim_C7 (totalMeasured totalViolation : Rat) (coords : ObjTable) :
    ((insertTotalWeights totalMeasured totalViolation coords).1.isSome = true ↔
       0 < totalMeasured ∧ (objLookup coords "totalWeightMeasured").isSome = true) ∧
    ((insertTotalWeights totalMeasured totalViolation coords).2.isSome = true ↔
       0 < totalViolation ∧ (objLookup coords "totalWeightViolation").isSome = true) ∧
    (∀ p, (insertTotalWeights totalMeasured totalViolation coords).1 = some p →
       p.isBold = decide (VIOLATION_LIMITS_TOTAL < totalMeasured) ∧
       p.color = (if VIOLATION_LIMITS_TOTAL < totalMeasured then PDF_CONFIG_red
                  else PDF_CONFIG_black) ∧
       p.text = toFixedStr 2 totalMeasured) := by
  refine ⟨?_, ?_, ?_⟩
  · by_cases hm : 0 < totalMeasured
    · cases hc : objLookup coords "totalWeightMeasured" with
      | some c => simp [insertTotalWeights, hm, hc]
      | none => simp [insertTotalWeights, hm, hc]
    · simp [insertTotalWeights, hm]
  · by_cases hv : 0 < totalViolation
    · cases hc : objLookup coords "totalWeightViolation" with
      | some c => simp [insertTotalWeights, hv, hc]
      | none => simp [insertTotalWeights, hv, hc]
    · simp [insertTotalWeights, hv]
  · intro p hp
    by_cases hm : 0 < totalMeasured
    · cases hc : objLookup coords "totalWeightMeasured" with
      | some c =>
        simp only [insertTotalWeights, hm, hc, if_pos] at hp
        simp at hp
        subst hp
        simp
      | none => simp [insertTotalWeights, hm, hc] at hp
    · simp [insertTotalWeights, hm] at hp

/-- Claim C7, witness: a measured total of 45 with the baseline page-1
table is placed, and its placement (computed concretely) is bold. -/
theorem claim_C7_witness :
    (insertTotalWeights 45 0 PDF_COORDINATES_page1).1.isSome = true ∧
    ({ text := "45.00", x := 515, y := 488, size := 9, isBold := true,
       color := PDF_CONFIG_red } : Placement).isBold = true :=
  ⟨(claim_C7 45 0 PDF_COORDINATES_page1).1.mpr ⟨by decide, by decide⟩,
   (((claim_C7 45 0 PDF_COORDINATES_page1).2.2 _ (by decide)).1).trans (by decide)⟩

/-- Claim C8: during axle processing, a slot contributes to the
accumulated total only when the resolved coordinate table has an entry for
that slot: both totals decompose into per-slot contributions conditioned
on parseability, strict positivity and coordinate coverage, and a form
with the positive parseable value 5.00 in slot 3 yields no placement and a
zero total under an empty coordinate table but a placement and total 5
under the covering baseline table. -/
theorem claim_C8 :
    (∀ (formData : FormData) (coords : ObjTable),
       (insertAxleMeasurements formData coords).2 =
         (axleMeasuredFields.map (axleSlotContrib formData coords)).sum) ∧
    (∀ (formData : FormData) (coords : ObjTable),
       (insertAxleViolations formData coords).2 =
         (axleViolationFields.map (axleSlotContrib formData coords)).sum) ∧
    insertAxleMeasurements coverageDemoForm [] = ([], 0) ∧
    (insertAxleMeasurements coverageDemoForm PDF_COORDINATES_page1).2 = 5 ∧
    (insertAxleMeasurements coverageDemoForm PDF_COORDINATES_page1).1 =
      [{ text := "5.00", x := 250, y := 488, size := 9, isBold := false,
         color := PDF_CONFIG_black }] :=
  ⟨fun formData coords => axleGo_snd measuredAxleStyle formData coords axleMeasuredFields,
   fun formData coords => axleGo_snd plainAxleStyle formData coords axleViolationFields,
   by decide, by decide, by decide⟩

/-- Claim C9: violation classification is total over arbitrary input and
never flags an unparseable value: when the parse fails isViolation is
false for every limit, isViolation is true exactly when the value parses
to a number strictly above the limit, and checkViolation applies the
highlight with exactly that classification. -/
theorem claim_C9 (value : JSVal) (limit : Rat) :
    (jsParseFloat value = none → isViolation value limit = false) ∧
    (isViolation value limit = true ↔
       ∃ q, jsParseFloat value = some q ∧ limit < q) ∧
    checkViolation value limit =
      (applyViolationHighlight (isViolation value limit), isViolation value limit) ∧
    isViolation (JSVal.str "abc") limit = false := by
  have habc : parseFloat "abc" = none := by decide
  refine ⟨fun h => ?_, ?_, rfl, ?_⟩
  · simp [isViolation, h]
  · cases hp : jsParseFloat value with
    | none => simp [isViolation, hp]
    | some q => simp [isViolation, hp]
  · simp [isViolation, jsParseFloat, habc]

/-- Claim C9, witness: the unparseable string abc is not flagged against
the axle limit. -/
theorem claim_C9_witness : isViolation (JSVal.str "abc") 11 = false :=
  (claim_C9 (JSVal.str "abc") 11).1 (by decide)

/-- Claim C10: datetime parsing for placement is total on string-or-absent
input: absent or empty input yields the all-empty record, any non-empty
input without a T gets the substituted time 00:00 (hour 00, minute 00),
and missing components default to the empty string, as the concrete
partial inputs show. -/
theorem claim_C10 :
    parseDatetimeForPdf none =
      { year := "", month := "", day := "", hour := "", minute := "" } ∧
    parseDatetimeForPdf (some "") =
      { year := "", month := "", day := "", hour := "", minute := "" } ∧
    (∀ s : String, s ≠ "" → (∀ c ∈ s.data, c ≠ 'T') →
       (parseDatetimeForPdf (some s)).hour = "00" ∧
       (parseDatetimeForPdf (some s)).minute = "00") ∧
    parseDatetimeForPdf (some "2026-01") =
      { year := "2026", month := "01", day := "", hour := "00", minute := "00" } ∧
    parseDatetimeForPdf (some "2026-01-13T") =
      { year := "2026", month := "01", day := "13", hour := "00", minute := "00" } := by
  refine ⟨rfl, by decide, fun s hs hT => ?_, by decide, by decide⟩
  have hsplit : jsSplit s 'T' = [s] := by
    unfold jsSplit
    rw [splitChar_of_no_sep 'T' s.data hT]
    rfl
  have h0 : ((jsSplit "00:00" ':')[0]?).getD "" = "00" := by decide
  have h1 : ((jsSplit "00:00" ':')[1]?).getD "" = "00" := by decide
  simp only [parseDatetimeForPdf, if_neg hs, hsplit]
  simp [h0, h1]

/-- Claim C10, witness: a date-only input gets hour 00 and minute 00. -/
theorem claim_C10_witness :
    (parseDatetimeForPdf (some "2026-01-13")).hour = "00" ∧
    (parseDatetimeForPdf (some "2026-01-13")).minute = "00" :=
  claim_C10.2.2.1 "2026-01-13" (by decide) (by decide)
